import Mathlib

/-!
# Verification of the cardiovascular risk-intelligence services

Shallow embedding of the numerical core of the `adaptivhealth` repository
(`app/services/anomaly_detection.py`, `trend_forecasting.py`,
`baseline_optimization.py`, `ml_prediction.py`, `explainability.py`,
`recommendation_ranking.py`, and the `/predict/risk` route of
`app/api/predict.py`).

Modelling conventions:
* Python numbers (ints and floats) are modelled as exact rationals `ℚ`;
  machine-float representation error is below every observable granularity
  used by the claims.
* Python `round(x, n)` (banker's rounding, ties to even) is modelled by
  `pyRound`; `int(round(x))` by `pyRoundInt`.
* The population standard deviation `_std(values) = sqrt(variance)` is
  irrational in general, so it is represented by its square `varOf`
  (the guarded population variance).  Every use of `_std` in the sources
  is one of `std == 0`, `std > 0`, `|v - m| <= 1.5*std`, or
  `|v - m|/std > t`; each is embedded by the exactly equivalent
  squared-form comparison on `varOf` (both sides non-negative).
  Output fields that merely echo a rounded standard deviation
  (`stats.hr_std`, baseline `confidence`, the per-event rounded
  `z_score`) are irrational and referenced by no claim, so they are
  omitted from the embedded records; a comment marks each omission.
* A vital-sign reading dict is a `Reading`; its `timestamp` is the
  already-parsed time in seconds (`none` models a missing or
  unparseable timestamp, mirroring `_parse_timestamp` returning `None`).
-/

set_option allowUnsafeReducibility true in
attribute [semireducible] Rat.mul Rat.inv Rat.add Rat.sub Rat.ofScientific

/-- Python `round(x)` → `ℤ`: round half to even (banker's rounding). -/
def pyRoundInt (x : ℚ) : ℤ :=
  if x - ⌊x⌋ < 1/2 then ⌊x⌋
  else if 1/2 < x - ⌊x⌋ then ⌊x⌋ + 1
  else if ⌊x⌋ % 2 = 0 then ⌊x⌋ else ⌊x⌋ + 1

/-- Python `round(x, n)` on a non-negative number of digits. -/
def pyRound (x : ℚ) (n : ℕ) : ℚ :=
  (pyRoundInt (x * 10 ^ n) : ℚ) / 10 ^ n

theorem pyRoundInt_le_of_le {x : ℚ} {B : ℤ} (h : x ≤ B) : pyRoundInt x ≤ B := by
  have hfl : ⌊x⌋ ≤ B := (Int.floor_le_floor h).trans_eq (Int.floor_intCast B)
  have hhalf : ¬ x - ⌊x⌋ < 1/2 → ⌊x⌋ + 1 ≤ B := by
    intro h1
    have hx : (⌊x⌋ : ℚ) + 1/2 ≤ x := by
      have := not_lt.mp h1
      linarith
    have hlt : (⌊x⌋ : ℚ) < (B : ℚ) := by linarith [hx.trans h]
    have : ⌊x⌋ < B := by exact_mod_cast hlt
    omega
  unfold pyRoundInt
  split_ifs with h1 h2 h3
  · exact hfl
  · exact hhalf h1
  · exact hfl
  · exact hhalf h1

theorem le_pyRoundInt_of_le {x : ℚ} {B : ℤ} (h : (B : ℚ) ≤ x) : B ≤ pyRoundInt x := by
  have hfl : B ≤ ⌊x⌋ := Int.le_floor.mpr h
  unfold pyRoundInt
  split_ifs <;> omega

theorem pyRound_nonneg {x : ℚ} (h : 0 ≤ x) : 0 ≤ pyRound x 4 := by
  unfold pyRound
  have h0 : ((0 : ℤ) : ℚ) ≤ x * 10 ^ 4 := by positivity
  have := le_pyRoundInt_of_le h0
  have hc : (0 : ℚ) ≤ (pyRoundInt (x * 10 ^ 4) : ℚ) := by exact_mod_cast this
  positivity

theorem pyRound_le_one {x : ℚ} (h : x ≤ 1) : pyRound x 4 ≤ 1 := by
  unfold pyRound
  have h1 : x * 10 ^ 4 ≤ ((10 ^ 4 : ℤ) : ℚ) := by push_cast; nlinarith
  have h2 : pyRoundInt (x * 10 ^ 4) ≤ 10 ^ 4 := pyRoundInt_le_of_le h1
  have hc : (pyRoundInt (x * 10 ^ 4) : ℚ) ≤ 10 ^ 4 := by exact_mod_cast h2
  rw [div_le_one (by positivity)]
  exact hc

/-- One vital-sign reading dict (`heart_rate`, `spo2`, `timestamp` keys);
`timestamp` is the parsed time in seconds since an arbitrary origin. -/
structure Reading where
  heart_rate : Option ℚ
  spo2 : Option ℚ
  timestamp : Option ℚ
deriving DecidableEq

namespace AnomalyDetection

/-- `_mean(values)` from `anomaly_detection.py`. -/
def meanOf (values : List ℚ) : ℚ :=
  if values = [] then 0 else values.sum / values.length

/-- The square of `_std(values)` (guarded population variance):
`0` when fewer than 2 values, else `sum((v-m)^2)/len`.
`_std values = Real.sqrt (varOf values)`, so `_std = 0 ↔ varOf = 0`,
`_std > 0 ↔ varOf > 0`. -/
def varOf (values : List ℚ) : ℚ :=
  if values.length < 2 then 0
  else ((values.map (fun v => (v - meanOf values) ^ 2)).sum) / values.length

/-- `_z_score_detect(values, threshold)`.  The source returns the pairs
`(i, z)` with `|z| > threshold` where `z = (v - mean)/std` (after the
`std == 0` early return).  Here the second component is `v - mean`
(the numerator of `z`: same sign as `z` since `std > 0`), and
`|z| > threshold` is embedded as the equivalent
`threshold < 0 ∨ (v - mean)^2 > threshold^2 * variance`. -/
def zScoreDetect (values : List ℚ) (threshold : ℚ) : List (ℕ × ℚ) :=
  let m := meanOf values
  let variance := varOf values
  if variance = 0 then []
  else
    values.enum.filterMap fun p =>
      if threshold < 0 ∨ threshold ^ 2 * variance < (p.2 - m) ^ 2
      then some (p.1, p.2 - m) else none

/-- One entry of the report's `anomalies` list.  The `z_score` field of
the source dict (`round(z, 2)`, irrational in general) is referenced by
no claim and omitted. -/
structure AnomalyEvent where
  index : ℕ
  metric : String
  value : ℚ
  direction : String
  timestamp : Option ℚ
deriving DecidableEq

/-- `[r["heart_rate"] for r in readings if r.get("heart_rate") is not None]` -/
def hrValuesOf (readings : List Reading) : List ℚ :=
  readings.filterMap Reading.heart_rate

/-- `[r["spo2"] for r in readings if r.get("spo2") is not None]` -/
def spo2ValuesOf (readings : List Reading) : List ℚ :=
  readings.filterMap Reading.spo2

/-- `readings[i].get("timestamp")` (the index is provably in bounds at
every call site, since the filtered value lists are no longer than
`readings`). -/
def tsAt (readings : List Reading) (i : ℕ) : Option ℚ :=
  (readings.get? i).bind Reading.timestamp

/-- Specification device for the index bookkeeping of the z-score
events: the position, in the full readings list, of the `i`-th reading
whose metric field `f` is non-null — i.e. the position of the reading
that contributed element `i` of `readings.filterMap f`, the sub-list
a z-score event's `index` and `value` refer to. -/
def posOfNth (f : Reading → Option ℚ) : List Reading → ℕ → Option ℕ
  | [], _ => none
  | r :: rest, 0 =>
    if (f r).isSome then some 0 else (posOfNth f rest 0).map (· + 1)
  | r :: rest, i + 1 =>
    if (f r).isSome then (posOfNth f rest i).map (· + 1)
    else (posOfNth f rest (i + 1)).map (· + 1)

/-- The event dict appended for a heart-rate z-score hit `(idx, z)`. -/
def mkHrEvent (readings : List Reading) (p : ℕ × ℚ) : AnomalyEvent :=
  { index := p.1
    metric := "heart_rate"
    value := (hrValuesOf readings).getD p.1 0
    direction := if 0 < p.2 then "high" else "low"
    timestamp := tsAt readings p.1 }

/-- The event dict appended for an SpO2 z-score hit `(idx, z)`. -/
def mkSpo2Event (readings : List Reading) (p : ℕ × ℚ) : AnomalyEvent :=
  { index := p.1
    metric := "spo2"
    value := (spo2ValuesOf readings).getD p.1 0
    direction := if 0 < p.2 then "high" else "low"
    timestamp := tsAt readings p.1 }

/-- The heart-rate z-score pass of `detect_anomalies` (guarded by
`len(hr_values) >= 3`). -/
def hrZEvents (readings : List Reading) (z_threshold : ℚ) : List AnomalyEvent :=
  if 3 ≤ (hrValuesOf readings).length then
    (zScoreDetect (hrValuesOf readings) z_threshold).map (mkHrEvent readings)
  else []

/-- The SpO2 z-score pass of `detect_anomalies` (guarded by
`len(spo2_values) >= 3`). -/
def spo2ZEvents (readings : List Reading) (z_threshold : ℚ) : List AnomalyEvent :=
  if 3 ≤ (spo2ValuesOf readings).length then
    (zScoreDetect (spo2ValuesOf readings) z_threshold).map (mkSpo2Event readings)
  else []

/-- `_detect_hr_variability_anomalies(hr_values, readings, jump_threshold=40)`:
`for i in range(1, len(hr_values))`, flag when `|Δ| >= jump_threshold`;
`value = int(delta)` truncates (here: floor, as `delta >= 0`). -/
def detectHrVariabilityAnomalies (hr_values : List ℚ) (readings : List Reading)
    (jump_threshold : ℚ) : List AnomalyEvent :=
  (List.range' 1 (hr_values.length - 1)).filterMap fun i =>
    let delta := |hr_values.getD i 0 - hr_values.getD (i - 1) 0|
    if jump_threshold ≤ delta then
      some { index := i
             metric := "hr_variability"
             value := (⌊delta⌋ : ℤ)
             direction := if hr_values.getD (i - 1) 0 < hr_values.getD i 0
                          then "spike" else "drop"
             timestamp := if i < readings.length then tsAt readings i else none }
    else none

/-- The returned report.  The `message` key (insufficient branch only) and
the `stats` block (`hr_std`/`spo2_std` are rounded irrationals) are
referenced by no claim and omitted; `z_threshold` is carried in both
branches here although the source's insufficient-data dict drops it
(no claim reads it there). -/
structure AnomalyReport where
  anomalies : List AnomalyEvent
  total_readings : ℕ
  anomaly_count : ℕ
  status : String
  z_threshold : ℚ
deriving DecidableEq

/-- The full `anomalies` list of the main branch of `detect_anomalies`
(heart-rate z-score events, then SpO2 z-score events, then the
beat-to-beat jump events with their default 40 bpm threshold). -/
def allAnomalies (readings : List Reading) (z_threshold : ℚ) : List AnomalyEvent :=
  hrZEvents readings z_threshold ++ spo2ZEvents readings z_threshold
    ++ detectHrVariabilityAnomalies (hrValuesOf readings) readings 40

/-- `detect_anomalies(readings, z_threshold)` from
`app/services/anomaly_detection.py`. -/
def detect_anomalies (readings : List Reading) (z_threshold : ℚ) : AnomalyReport :=
  if readings.length < 3 then
    { anomalies := []
      total_readings := readings.length
      anomaly_count := 0
      status := "insufficient_data"
      z_threshold := z_threshold }
  else
    { anomalies := allAnomalies readings z_threshold
      total_readings := readings.length
      anomaly_count := (allAnomalies readings z_threshold).length
      status := if (allAnomalies readings z_threshold).length = 0
                then "normal" else "anomalies_detected"
      z_threshold := z_threshold }

end AnomalyDetection

namespace TrendForecasting

open AnomalyDetection (meanOf)

/-- The per-metric block returned by `_linear_forecast`
(`trend_forecasting.py`). -/
structure TrendResult where
  slope_per_day : ℚ
  direction : String
  current_fitted : ℚ
  forecasted_value : ℚ
  forecast_day : ℤ
  r_squared : ℚ
  data_points : ℕ
deriving DecidableEq

/-- The OLS slope of `_linear_forecast` (`0.0` when the denominator is
zero). -/
def slopeOf (series : List (ℚ × ℚ)) : ℚ :=
  let n : ℚ := series.length
  let x_mean := (series.map Prod.fst).sum / n
  let y_mean := (series.map Prod.snd).sum / n
  let numerator := (series.map (fun p => (p.1 - x_mean) * (p.2 - y_mean))).sum
  let denominator := (series.map (fun p => (p.1 - x_mean) ^ 2)).sum
  if denominator = 0 then 0 else numerator / denominator

/-- The intercept `y_mean - slope * x_mean` of `_linear_forecast`. -/
def interceptOf (series : List (ℚ × ℚ)) : ℚ :=
  (series.map Prod.snd).sum / series.length
    - slopeOf series * ((series.map Prod.fst).sum / series.length)

/-- `r_squared = 1 - ss_res/ss_tot` (or `0.0` when `ss_tot ≤ 0`). -/
def rSquaredOf (series : List (ℚ × ℚ)) : ℚ :=
  let y_mean := (series.map Prod.snd).sum / series.length
  let ss_res := (series.map
    (fun p => (p.2 - (slopeOf series * p.1 + interceptOf series)) ^ 2)).sum
  let ss_tot := (series.map (fun p => (p.2 - y_mean) ^ 2)).sum
  if 0 < ss_tot then 1 - ss_res / ss_tot else 0

/-- `_linear_forecast(series, forecast_days)` from `trend_forecasting.py`. -/
def linearForecast (series : List (ℚ × ℚ)) (forecast_days : ℤ) : TrendResult :=
  let slope := slopeOf series
  let intercept := interceptOf series
  let last_day := (series.map Prod.fst).getLastD 0
  let current_value := slope * last_day + intercept
  let forecasted_value := slope * (last_day + forecast_days) + intercept
  { slope_per_day := pyRound slope 4
    direction := if |slope| < 1/10 then "stable"
                 else if 0 < slope then "increasing" else "decreasing"
    current_fitted := pyRound current_value 1
    forecasted_value := pyRound forecasted_value 1
    forecast_day := forecast_days
    r_squared := pyRound (rSquaredOf series) 4
    data_points := series.length }

/-- The `risk_projection` block of `_compute_risk_projection`. -/
structure RiskProjection where
  risk_direction : String
  risk_score_delta : ℚ
  factors : List String
deriving DecidableEq

/-- `_compute_risk_projection(trends)`: reads the rounded
`slope_per_day`/`direction` fields of the per-metric results. -/
def computeRiskProjection (hr_trend spo2_trend : Option TrendResult) : RiskProjection :=
  let hrDelta : ℚ × List String :=
    match hr_trend with
    | none => (0, [])
    | some t =>
      if t.direction = "increasing" ∧ 1/2 < t.slope_per_day then
        (1/10, ["Heart rate trending upward"])
      else if t.direction = "decreasing" ∧ t.slope_per_day < -(1/2) then
        (-(1/20), ["Heart rate trending downward (improving)"])
      else (0, [])
  let spo2Delta : ℚ × List String :=
    match spo2_trend with
    | none => (0, [])
    | some t =>
      if t.direction = "decreasing" ∧ t.slope_per_day < -(1/10) then
        (3/20, ["SpO2 trending downward (concerning)"])
      else if t.direction = "increasing" then
        (-(1/20), ["SpO2 trending upward (improving)"])
      else (0, [])
  let risk_score_delta := hrDelta.1 + spo2Delta.1
  let factors0 := hrDelta.2 ++ spo2Delta.2
  let factors := if factors0 = [] then ["All trends appear stable"] else factors0
  { risk_direction :=
      if 1/20 < risk_score_delta then "increasing"
      else if risk_score_delta < -(3/100) then "decreasing"
      else "stable"
    risk_score_delta := pyRound risk_score_delta 3
    factors := factors }

/-- The dict returned by `forecast_trends`.  The `trends` sub-dict is the
pair of optional per-metric blocks; `message` (insufficient branch) is
omitted. -/
structure TrendReport where
  status : String
  total_readings : ℕ
  forecast_days : ℤ
  hr_trend : Option TrendResult
  spo2_trend : Option TrendResult
  risk_projection : Option RiskProjection
deriving DecidableEq

/-- The per-metric `(day_offset, value)` series built by `forecast_trends`:
day offsets are `(ts - base_time)/86400` when both timestamps parsed,
else `0.0`. -/
def seriesOf (metric : Reading → Option ℚ) (readings : List Reading) :
    List (ℚ × ℚ) :=
  let base := (readings.head?).bind Reading.timestamp
  readings.filterMap fun r =>
    let day : ℚ := match r.timestamp, base with
      | some a, some b => (a - b) / 86400
      | _, _ => 0
    (metric r).map fun v => (day, v)

/-- `forecast_trends(readings, forecast_days)` from `trend_forecasting.py`. -/
def forecast_trends (readings : List Reading) (forecast_days : ℤ) : TrendReport :=
  if readings.length < 7 then
    { status := "insufficient_data"
      total_readings := readings.length
      forecast_days := forecast_days
      hr_trend := none
      spo2_trend := none
      risk_projection := none }
  else
    let hr_series := seriesOf Reading.heart_rate readings
    let spo2_series := seriesOf Reading.spo2 readings
    let hr_trend := if 7 ≤ hr_series.length
      then some (linearForecast hr_series forecast_days) else none
    let spo2_trend := if 7 ≤ spo2_series.length
      then some (linearForecast spo2_series forecast_days) else none
    { status := "ok"
      total_readings := readings.length
      forecast_days := forecast_days
      hr_trend := hr_trend
      spo2_trend := spo2_trend
      risk_projection := some (computeRiskProjection hr_trend spo2_trend) }

end TrendForecasting

namespace BaselineOptimization

open AnomalyDetection (meanOf varOf)

/-- The dict returned by `compute_optimized_baseline`.  Keys present only
in some branches are `Option`s; `message`, `confidence` (contains the
irrational `std_hr`), `readings_total` and `stats` are referenced by no
claim and omitted. -/
structure BaselineResult where
  status : String
  current_baseline : Option ℤ
  new_baseline : Option ℤ
  adjustment : Option ℤ
  adjusted : Bool
  readings_used : ℕ
deriving DecidableEq

/-- The valid heart-rate values
(`r.get("heart_rate") is not None and 40 <= r["heart_rate"] <= 120`). -/
def validHr (readings : List Reading) : List ℚ :=
  readings.filterMap fun r =>
    match r.heart_rate with
    | some v => if 40 ≤ v ∧ v ≤ 120 then some v else none
    | none => none

/-- The outlier-filtered subset: drop values more than `1.5*std` from the
mean when `std > 0` (embedded as the equivalent
`(v - mean)^2 ≤ (3/2)^2 * variance`); fall back to the unfiltered list
when fewer than 3 remain. -/
def filteredHr (readings : List Reading) : List ℚ :=
  let vals := validHr readings
  let m := meanOf vals
  let variance := varOf vals
  let f := if 0 < variance
    then vals.filter (fun v => decide ((v - m) ^ 2 ≤ (3/2) ^ 2 * variance))
    else vals
  if f.length < 3 then vals else f

/-- The mean of the outlier-filtered resting readings (`filtered_mean`). -/
def filteredMean (readings : List Reading) : ℚ :=
  meanOf (filteredHr readings)

/-- `compute_optimized_baseline(resting_readings, current_baseline,
smoothing_factor)` from `baseline_optimization.py`.  Note
`current_baseline or new_baseline` in the source: a current baseline of
`0` is falsy in Python, so the adjustment then compares `new_baseline`
with itself. -/
def compute_optimized_baseline (resting_readings : List Reading)
    (current_baseline : Option ℤ) (smoothing_factor : ℚ) : BaselineResult :=
  if resting_readings.length < 5 then
    { status := "insufficient_data"
      current_baseline := current_baseline
      new_baseline := current_baseline
      adjustment := none
      adjusted := false
      readings_used := resting_readings.length }
  else if (validHr resting_readings).length < 5 then
    { status := "insufficient_valid_data"
      current_baseline := current_baseline
      new_baseline := current_baseline
      adjustment := none
      adjusted := false
      readings_used := (validHr resting_readings).length }
  else
    let fm := filteredMean resting_readings
    let nb0 : ℤ := match current_baseline with
      | some c => pyRoundInt ((c : ℚ) * (1 - smoothing_factor) + fm * smoothing_factor)
      | none => pyRoundInt fm
    let nb : ℤ := max 40 (min 120 nb0)
    let fallback : ℤ := match current_baseline with
      | some c => if c = 0 then nb else c
      | none => nb
    let adjustment := nb - fallback
    { status := "ok"
      current_baseline := current_baseline
      new_baseline := some nb
      adjustment := some adjustment
      adjusted := decide (1 ≤ |adjustment|)
      readings_used := (filteredHr resting_readings).length }

end BaselineOptimization

namespace MLPrediction

/-- The opaque, pre-trained scoring artifact (`risk_model.pkl`): it exposes
`predict(X)[0]` (the 0/1 class label) and `predict_proba(X)[0]`
(the pair `[prob_low, prob_high]`).  The artifact's behaviour is not in
the repository; it is an arbitrary function of the scaled feature row. -/
structure MLModel where
  predict : List ℚ → ℤ
  predictProba : List ℚ → ℚ × ℚ

/-- The module-level globals `model`, `scaler`, `feature_columns` of
`ml_prediction.py` (each `None` until `load_ml_model` succeeds; on
success all three are set).  The scaler (`scaler.pkl`) is likewise an
opaque row transformation. -/
structure MLState where
  model : Option MLModel
  scaler : Option (List ℚ → List ℚ)
  feature_columns : Option (List String)

/-- The raw arguments of `predict_risk` / `engineer_features`. -/
structure PredictInput where
  age : ℤ
  baseline_hr : ℤ
  max_safe_hr : ℤ
  avg_heart_rate : ℤ
  peak_heart_rate : ℤ
  min_heart_rate : ℤ
  avg_spo2 : ℤ
  duration_minutes : ℤ
  recovery_time_minutes : ℤ
  activity_type : String

/-- `engineer_features(...)` from `ml_prediction.py`: the 17-entry
feature dict, in insertion order. -/
def engineer_features (inp : PredictInput) : List (String × ℚ) :=
  let hr_pct_of_max : ℚ :=
    if 0 < inp.max_safe_hr then (inp.peak_heart_rate : ℚ) / inp.max_safe_hr else 0
  let recovery_efficiency : ℚ :=
    if 0 < inp.duration_minutes
    then (inp.recovery_time_minutes : ℚ) / inp.duration_minutes else 0
  let activity_intensity : ℚ :=
    if inp.activity_type = "walking" ∨ inp.activity_type = "yoga" then 1
    else if inp.activity_type = "jogging" ∨ inp.activity_type = "cycling" then 2
    else if inp.activity_type = "swimming" then 3
    else 2
  [("age", (inp.age : ℚ)),
   ("baseline_hr", (inp.baseline_hr : ℚ)),
   ("max_safe_hr", (inp.max_safe_hr : ℚ)),
   ("avg_heart_rate", (inp.avg_heart_rate : ℚ)),
   ("peak_heart_rate", (inp.peak_heart_rate : ℚ)),
   ("min_heart_rate", (inp.min_heart_rate : ℚ)),
   ("avg_spo2", (inp.avg_spo2 : ℚ)),
   ("duration_minutes", (inp.duration_minutes : ℚ)),
   ("recovery_time_minutes", (inp.recovery_time_minutes : ℚ)),
   ("hr_pct_of_max", hr_pct_of_max),
   ("hr_elevation", (inp.avg_heart_rate : ℚ) - inp.baseline_hr),
   ("hr_range", (inp.peak_heart_rate : ℚ) - inp.min_heart_rate),
   ("duration_intensity", (inp.duration_minutes : ℚ) * hr_pct_of_max),
   ("recovery_efficiency", recovery_efficiency),
   ("spo2_deviation", 98 - (inp.avg_spo2 : ℚ)),
   ("age_risk_factor", (inp.age : ℚ) / 70),
   ("activity_intensity", activity_intensity)]

/-- `np.array([[features[col] for col in feature_columns]])` followed by
`scaler.transform`.  (`features[col]` for a `col` outside the 17 names
would raise `KeyError`; the artifact contract fixes `feature_columns`
to exactly those names, and the lookup default is never exercised in
the claims.) -/
def scaledFeatures (sc : List ℚ → List ℚ) (cols : List String)
    (inp : PredictInput) : List ℚ :=
  sc (cols.map fun c => ((engineer_features inp).lookup c).getD 0)

/-- The class probabilities `model.predict_proba(feature_scaled)[0]`. -/
def probsOf (m : MLModel) (sc : List ℚ → List ℚ) (cols : List String)
    (inp : PredictInput) : ℚ × ℚ :=
  m.predictProba (scaledFeatures sc cols inp)

/-- The dict returned by `predict_risk` (its constant `model_info` block
is omitted). -/
structure PredictResult where
  risk_score : ℚ
  risk_level : String
  high_risk : Bool
  confidence : ℚ
  features_used : List (String × ℚ)
  recommendation : String
deriving DecidableEq

/-- `predict_risk(...)` from `ml_prediction.py`.  The source raises
`RuntimeError("ML model not loaded. Server startup failed.")` when any
of the three globals is `None`; raising is modelled as `Except.error`
with the exception's message. -/
def predict_risk (st : MLState) (inp : PredictInput) :
    Except String PredictResult :=
  match st.model, st.scaler, st.feature_columns with
  | some m, some sc, some cols =>
    let prediction := m.predict (scaledFeatures sc cols inp)
    let p := probsOf m sc cols inp
    let risk_score := p.2
    .ok
      { risk_score := pyRound risk_score 4
        risk_level :=
          if 4/5 ≤ risk_score then "high"
          else if 1/2 ≤ risk_score then "moderate"
          else "low"
        high_risk := decide (prediction = 1)
        confidence := pyRound (max p.1 p.2) 4
        features_used := engineer_features inp
        recommendation :=
          if 4/5 ≤ risk_score then
            "STOP activity immediately. Rest and monitor symptoms."
          else if 1/2 ≤ risk_score then
            "Reduce intensity. Consider taking a break."
          else "Safe to continue at current intensity." }
  | _, _, _ => .error "ML model not loaded. Server startup failed."

/-- `is_model_loaded()` from `ml_prediction.py`. -/
def is_model_loaded (st : MLState) : Bool :=
  st.model.isSome && st.scaler.isSome && st.feature_columns.isSome

/-- The `/predict/risk` route of `app/api/predict.py`: it branches on
`service.is_loaded` and raises `HTTPException(503)` before calling
`predict_risk`; an exception from `predict_risk` is mapped to
`HTTPException(500, "Prediction failed: ...")`.  An `HTTPException`
is modelled as `Except.error (status_code, detail)`. -/
def predictEndpoint (st : MLState) (inp : PredictInput) :
    Except (ℤ × String) PredictResult :=
  if is_model_loaded st then
    match predict_risk st inp with
    | .ok r => .ok r
    | .error e => .error (500, "Prediction failed: " ++ e)
  else
    .error (503, "ML model not loaded. Check server logs.")

end MLPrediction

namespace Explainability

/-- The `_TYPICAL_VALUES` table of `explainability.py`. -/
def TYPICAL_VALUES : List (String × ℚ) :=
  [("age", 55), ("baseline_hr", 72), ("max_safe_hr", 165),
   ("avg_heart_rate", 90), ("peak_heart_rate", 120), ("min_heart_rate", 65),
   ("avg_spo2", 97), ("duration_minutes", 20), ("recovery_time_minutes", 5),
   ("hr_pct_of_max", 72/100), ("hr_elevation", 18), ("hr_range", 55),
   ("duration_intensity", 144/10), ("recovery_efficiency", 25/100),
   ("spo2_deviation", 1), ("age_risk_factor", 79/100),
   ("activity_intensity", 2)]

/-- One value of the per-feature `contributions` dict built by
`_estimate_contributions`.  The templated `explanation` string is
referenced by no claim and omitted (with the `_feature_to_readable`
name table). -/
structure ContribInfo where
  value : ℚ
  typical_value : ℚ
  deviation : ℚ
  contribution : ℚ
  direction : String
deriving DecidableEq

/-- `deviation = (value - typical)/|typical|` (`0.0` if `typical == 0`),
for the column `c` of the feature dict. -/
def deviationOf (features : List (String × ℚ)) (c : String) : ℚ :=
  let value := (features.lookup c).getD 0
  let typical := (TYPICAL_VALUES.lookup c).getD value
  if typical ≠ 0 then (value - typical) / |typical| else 0

/-- `global_importances.get(col, 1.0/max(1, len(feature_columns)))`. -/
def importanceOf (gi : List (String × ℚ)) (n : ℕ) (c : String) : ℚ :=
  (gi.lookup c).getD (1 / (max 1 n : ℕ))

/-- `_estimate_contributions(features, feature_columns, global_importances)`:
dict keyed by column (an association list here; `feature_columns`
holds 17 distinct names, so dict and list coincide).
`contribution = round(global_imp * deviation, 4)`; `value` is rounded
to 4 decimals when it is a float (rounding is the identity on the
integer-valued entries, so it is applied uniformly here). -/
def estimateContributions (features : List (String × ℚ)) (cols : List String)
    (gi : List (String × ℚ)) : List (String × ContribInfo) :=
  cols.map fun c =>
    let value := (features.lookup c).getD 0
    let typical := (TYPICAL_VALUES.lookup c).getD value
    let deviation := deviationOf features c
    let contribution := pyRound (importanceOf gi cols.length c * deviation) 4
    (c, { value := pyRound value 4
          typical_value := typical
          deviation := pyRound deviation 4
          contribution := contribution
          direction := if 0 < contribution then "increasing"
                       else if contribution < 0 then "decreasing"
                       else "neutral" })

/-- One entry of `top_features`. -/
structure TopFeature where
  feature : String
  value : ℚ
  contribution : ℚ
  direction : String
  global_importance : ℚ
deriving DecidableEq

/-- The dict returned by `compute_feature_importance` (the constant
`method` string is kept; `feature_count` is the column count). -/
structure ExplainResult where
  top_features : List TopFeature
  global_importances : List (String × ℚ)
  feature_count : ℕ
  method : String
deriving DecidableEq

/-- The `global_importances` dict: built from the model's
`feature_importances_` array when a model is supplied
(`round(float(importances[i]), 4)` per column, guarded by
`i < len(importances)`), else empty. -/
def globalImportancesOf (cols : List String)
    (modelImportances : Option (List ℚ)) : List (String × ℚ) :=
  match modelImportances with
  | none => []
  | some arr =>
    cols.enum.filterMap fun p =>
      if p.1 < arr.length then some (p.2, pyRound (arr.getD p.1 0) 4) else none

/-- The descending-by-`|contribution|` comparison used by
`sorted(..., key=lambda x: abs(x[1]["contribution"]), reverse=True)`. -/
def contribGE (a b : String × ContribInfo) : Prop :=
  |b.2.contribution| ≤ |a.2.contribution|

instance : DecidableRel contribGE := fun a b =>
  inferInstanceAs (Decidable (|b.2.contribution| ≤ |a.2.contribution|))

/-- `compute_feature_importance(features_used, feature_columns, model)`
from `explainability.py`; `modelImportances` is the model's
`feature_importances_` array (`none` when no model is supplied or the
attribute is missing).  Python's `sorted` is a stable sort; it is
embedded as the stable `insertionSort` (any two stable sorts of the
same list under the same total preorder coincide). -/
def compute_feature_importance (features : List (String × ℚ))
    (cols : List String) (modelImportances : Option (List ℚ)) : ExplainResult :=
  let gi := globalImportancesOf cols modelImportances
  let sorted := (estimateContributions features cols gi).insertionSort contribGE
  { top_features := (sorted.take 5).map fun p =>
      { feature := p.1
        value := p.2.value
        contribution := p.2.contribution
        direction := p.2.direction
        global_importance := (gi.lookup p.1).getD 0 }
    global_importances := gi
    feature_count := cols.length
    method := "tree_importance_with_deviation_analysis" }

end Explainability

namespace RecommendationRanking

/-- Python `str.lower()` / `str.upper()` (ASCII case mapping; every
string compared by the ranking service is ASCII). -/
def lowerStr (s : String) : String := ⟨s.data.map Char.toLower⟩

/-- See `lowerStr`. -/
def upperStr (s : String) : String := ⟨s.data.map Char.toUpper⟩

/-- One recommendation variant's content. -/
structure VariantContent where
  title : String
  suggested_activity : String
  intensity_level : String
  duration_minutes : ℤ
  description : String
deriving DecidableEq, Inhabited

/-- The `A`/`B` pair for one risk tier. -/
structure VariantPair where
  A : VariantContent
  B : VariantContent
deriving DecidableEq, Inhabited

/-- The `RECOMMENDATION_VARIANTS` catalog of `recommendation_ranking.py`. -/
def RECOMMENDATION_VARIANTS : List (String × VariantPair) :=
  [("high",
    { A := { title := "Recovery & Monitoring"
             suggested_activity := "Rest and light breathing"
             intensity_level := "low"
             duration_minutes := 10
             description := "Stop intense activity. Sit down, hydrate, and do slow breathing." }
      B := { title := "Guided Recovery"
             suggested_activity := "Seated breathing exercises"
             intensity_level := "low"
             duration_minutes := 15
             description := "Follow guided breathing: inhale 4s, hold 4s, exhale 6s. Stay seated." } }),
   ("moderate",
    { A := { title := "Low-Intensity Session"
             suggested_activity := "Walking"
             intensity_level := "low"
             duration_minutes := 15
             description := "Reduce intensity today. Aim for a steady pace and monitor how you feel." }
      B := { title := "Gentle Movement"
             suggested_activity := "Stretching and light yoga"
             intensity_level := "low"
             duration_minutes := 20
             description := "Focus on gentle stretches and deep breathing to aid recovery." } }),
   ("low",
    { A := { title := "Continue Safe Training"
             suggested_activity := "Walking / Light cardio"
             intensity_level := "moderate"
             duration_minutes := 20
             description := "You are in a safe zone. Keep steady effort and stay hydrated." }
      B := { title := "Progress Your Workout"
             suggested_activity := "Brisk walking or cycling"
             intensity_level := "moderate"
             duration_minutes := 25
             description := "Your vitals are great! Try increasing pace slightly for extra benefit." } })]

/-- `_assign_variant(user_id)`: parity of
`int(hashlib.md5(str(user_id).encode()).hexdigest(), 16)`.
`md5Int` is that library hash (an opaque deterministic function, not
code of this repository); the service only relies on it being a stable
function of the string. -/
def assignVariant (md5Int : String → ℕ) (user_id : ℤ) : String :=
  if md5Int (toString user_id) % 2 = 0 then "A" else "B"

/-- The risk-tier normalization at the top of `get_ranked_recommendation`:
lower-case; `critical`/`high` fold to `high`; anything not `moderate`
or `low` folds to `low`. -/
def normalizeLevel (risk_level : String) : String :=
  let level := lowerStr risk_level
  if level = "critical" ∨ level = "high" then "high"
  else if ¬ (level = "moderate" ∨ level = "low") then "low"
  else level

/-- The dict returned by `get_ranked_recommendation`. -/
structure RankedRecommendation where
  variant : String
  risk_level : String
  recommendation : VariantContent
  experiment_id : String
  user_id : ℤ
deriving DecidableEq

/-- `get_ranked_recommendation(user_id, risk_level, variant_override)` from
`recommendation_ranking.py`.  `variant_override and ... .upper() in
variants` is Python-truthy: an empty override string falls through to
hash assignment, and the catalog's keys per tier are `A` and `B`. -/
def get_ranked_recommendation (md5Int : String → ℕ) (user_id : ℤ)
    (risk_level : String) (variant_override : Option String) :
    RankedRecommendation :=
  let level := normalizeLevel risk_level
  let pair := (RECOMMENDATION_VARIANTS.lookup level).getD
    ((RECOMMENDATION_VARIANTS.lookup "low").getD default)
  let variant : String :=
    match variant_override with
    | some o =>
      if o ≠ "" ∧ (upperStr o = "A" ∨ upperStr o = "B") then upperStr o
      else assignVariant md5Int user_id
    | none => assignVariant md5Int user_id
  { variant := variant
    risk_level := level
    recommendation := if variant = "A" then pair.A else pair.B
    experiment_id := "rec_ranking_" ++ level ++ "_v1"
    user_id := user_id }

end RecommendationRanking

/-- The C5 test window: 9 near-identical heart rates oscillating in 71–75
followed by one outlier of 180 (no SpO2, no timestamps). -/
def c5Readings : List Reading :=
  [⟨some 72, none, none⟩, ⟨some 75, none, none⟩, ⟨some 73, none, none⟩,
   ⟨some 74, none, none⟩, ⟨some 71, none, none⟩, ⟨some 73, none, none⟩,
   ⟨some 74, none, none⟩, ⟨some 72, none, none⟩, ⟨some 75, none, none⟩,
   ⟨some 180, none, none⟩]

/-- The C10 demonstration window: the first reading has no heart-rate
value, then the same ten heart rates as `c5Readings` at timestamps
1, 2, ..., 10 seconds. -/
def c10Readings : List Reading :=
  [⟨none, none, some 0⟩,
   ⟨some 72, none, some 1⟩, ⟨some 75, none, some 2⟩, ⟨some 73, none, some 3⟩,
   ⟨some 74, none, some 4⟩, ⟨some 71, none, some 5⟩, ⟨some 73, none, some 6⟩,
   ⟨some 74, none, some 7⟩, ⟨some 72, none, some 8⟩, ⟨some 75, none, some 9⟩,
   ⟨some 180, none, some 10⟩]

/-- The C6 test window: 14 daily heart-rate readings rising exactly
2 bpm/day from 72 (timestamps on an exact one-day grid). -/
def c6Readings : List Reading :=
  (List.range 14).map fun k => ⟨some (72 + 2 * k), none, some (86400 * k)⟩

/-- A concrete scoring artifact for the verification instances: the
classifier returns the fixed class-probability pair `p` (and label 1). -/
def constModel (p : ℚ × ℚ) : MLPrediction.MLModel :=
  { predict := fun _ => 1, predictProba := fun _ => p }

/-- A concrete session input (typical values). -/
def sampleInput : MLPrediction.PredictInput :=
  { age := 55, baseline_hr := 72, max_safe_hr := 165, avg_heart_rate := 90,
    peak_heart_rate := 120, min_heart_rate := 65, avg_spo2 := 97,
    duration_minutes := 20, recovery_time_minutes := 5,
    activity_type := "walking" }

/-- A concrete feature dict for the explainer instances: `age` is twice
its typical value, the other two features sit at their typical values. -/
def c8Features : List (String × ℚ) :=
  [("age", 110), ("baseline_hr", 72), ("max_safe_hr", 165)]

/-- The columns for the explainer instances. -/
def c8Cols : List String := ["age", "baseline_hr", "max_safe_hr"]

namespace BaselineOptimization

theorem validHr_length_le (rs : List Reading) :
    (validHr rs).length ≤ rs.length :=
  List.length_filterMap_le _ _

end BaselineOptimization

namespace AnomalyDetection

theorem metric_of_mem_jump {vals : List ℚ} {rs : List Reading} {j : ℚ}
    {e : AnomalyEvent} (h : e ∈ detectHrVariabilityAnomalies vals rs j) :
    e.metric = "hr_variability" := by
  unfold detectHrVariabilityAnomalies at h
  simp only [List.mem_filterMap] at h
  obtain ⟨i, -, hi⟩ := h
  split at hi
  · cases hi
    rfl
  · cases hi

theorem props_of_mem_hrZEvents {rs : List Reading} {t : ℚ} {e : AnomalyEvent}
    (h : e ∈ hrZEvents rs t) :
    e.metric = "heart_rate" ∧ e.value = (hrValuesOf rs).getD e.index 0 ∧
      e.timestamp = tsAt rs e.index := by
  unfold hrZEvents at h
  split at h
  · simp only [List.mem_map] at h
    obtain ⟨p, -, rfl⟩ := h
    exact ⟨rfl, rfl, rfl⟩
  · cases h

theorem metric_of_mem_spo2ZEvents {rs : List Reading} {t : ℚ} {e : AnomalyEvent}
    (h : e ∈ spo2ZEvents rs t) : e.metric = "spo2" := by
  unfold spo2ZEvents at h
  split at h
  · simp only [List.mem_map] at h
    obtain ⟨p, -, rfl⟩ := h
    rfl
  · cases h

theorem props_of_mem_spo2ZEvents {rs : List Reading} {t : ℚ} {e : AnomalyEvent}
    (h : e ∈ spo2ZEvents rs t) :
    e.metric = "spo2" ∧ e.value = (spo2ValuesOf rs).getD e.index 0 ∧
      e.timestamp = tsAt rs e.index := by
  unfold spo2ZEvents at h
  split at h
  · simp only [List.mem_map] at h
    obtain ⟨p, -, rfl⟩ := h
    exact ⟨rfl, rfl, rfl⟩
  · cases h

theorem le_of_posOfNth {f : Reading → Option ℚ} :
    ∀ {rs : List Reading} {i p : ℕ}, posOfNth f rs i = some p → i ≤ p := by
  intro rs
  induction rs with
  | nil => intro i p h; cases h
  | cons r rest ih =>
    intro i p h
    cases hf : f r with
    | some v =>
      have hc : (f r).isSome = true := by rw [hf]; rfl
      cases i with
      | zero =>
        rw [posOfNth, if_pos hc] at h
        cases h
        exact Nat.zero_le 0
      | succ j =>
        rw [posOfNth, if_pos hc] at h
        cases hp : posOfNth f rest j with
        | none => rw [hp] at h; cases h
        | some q =>
          rw [hp] at h
          cases h
          exact Nat.succ_le_succ (ih hp)
    | none =>
      have hc : ¬ (f r).isSome = true := by rw [hf]; simp
      cases i with
      | zero =>
        rw [posOfNth, if_neg hc] at h
        cases hp : posOfNth f rest 0 with
        | none => rw [hp] at h; cases h
        | some q =>
          rw [hp] at h
          cases h
          exact Nat.zero_le _
      | succ j =>
        rw [posOfNth, if_neg hc] at h
        cases hp : posOfNth f rest (j + 1) with
        | none => rw [hp] at h; cases h
        | some q =>
          rw [hp] at h
          cases h
          exact Nat.le_succ_of_le (ih hp)

theorem lt_of_posOfNth_of_missing {f : Reading → Option ℚ} :
    ∀ {rs : List Reading} {i p : ℕ}, posOfNth f rs i = some p →
      (∃ q rq, q < p ∧ rs.get? q = some rq ∧ f rq = none) → i < p := by
  intro rs
  induction rs with
  | nil => intro i p h; cases h
  | cons r rest ih =>
    intro i p h hmiss
    obtain ⟨q, rq, hq, hget, hnone⟩ := hmiss
    cases hf : f r with
    | some v =>
      have hc : (f r).isSome = true := by rw [hf]; rfl
      cases i with
      | zero =>
        rw [posOfNth, if_pos hc] at h
        cases h
        exact absurd hq (Nat.not_lt_zero q)
      | succ j =>
        rw [posOfNth, if_pos hc] at h
        cases hp : posOfNth f rest j with
        | none => rw [hp] at h; cases h
        | some pq =>
          rw [hp] at h
          cases h
          cases q with
          | zero =>
            rw [show (r :: rest).get? 0 = some r from rfl] at hget
            cases hget
            rw [hf] at hnone
            cases hnone
          | succ qj =>
            exact Nat.succ_lt_succ
              (ih hp ⟨qj, rq, Nat.lt_of_succ_lt_succ hq, hget, hnone⟩)
    | none =>
      have hc : ¬ (f r).isSome = true := by rw [hf]; simp
      cases i with
      | zero =>
        rw [posOfNth, if_neg hc] at h
        cases hp : posOfNth f rest 0 with
        | none => rw [hp] at h; cases h
        | some pq =>
          rw [hp] at h
          cases h
          exact Nat.succ_pos pq
      | succ j =>
        rw [posOfNth, if_neg hc] at h
        cases hp : posOfNth f rest (j + 1) with
        | none => rw [hp] at h; cases h
        | some pq =>
          rw [hp] at h
          cases h
          exact Nat.lt_succ_of_le (le_of_posOfNth hp)

theorem filterMap_get_posOfNth {f : Reading → Option ℚ} :
    ∀ {rs : List Reading} {i p : ℕ}, posOfNth f rs i = some p →
      (rs.filterMap f).get? i = (rs.get? p).bind f := by
  intro rs
  induction rs with
  | nil => intro i p h; cases h
  | cons r rest ih =>
    intro i p h
    cases hf : f r with
    | some v =>
      have hc : (f r).isSome = true := by rw [hf]; rfl
      rw [List.filterMap_cons, hf]
      cases i with
      | zero =>
        rw [posOfNth, if_pos hc] at h
        cases h
        simp [hf]
      | succ j =>
        rw [posOfNth, if_pos hc] at h
        cases hp : posOfNth f rest j with
        | none => rw [hp] at h; cases h
        | some q =>
          rw [hp] at h
          cases h
          exact ih hp
    | none =>
      have hc : ¬ (f r).isSome = true := by rw [hf]; simp
      rw [List.filterMap_cons, hf]
      cases i with
      | zero =>
        rw [posOfNth, if_neg hc] at h
        cases hp : posOfNth f rest 0 with
        | none => rw [hp] at h; cases h
        | some q =>
          rw [hp] at h
          cases h
          exact ih hp
      | succ j =>
        rw [posOfNth, if_neg hc] at h
        cases hp : posOfNth f rest (j + 1) with
        | none => rw [hp] at h; cases h
        | some q =>
          rw [hp] at h
          cases h
          exact ih hp

theorem mem_anomalies_cases {rs : List Reading} {t : ℚ} {e : AnomalyEvent}
    (h : e ∈ (detect_anomalies rs t).anomalies) :
    e ∈ hrZEvents rs t ∨ e ∈ spo2ZEvents rs t ∨
      e ∈ detectHrVariabilityAnomalies (hrValuesOf rs) rs 40 := by
  unfold detect_anomalies at h
  split at h
  · cases h
  · simpa [allAnomalies, List.mem_append, or_assoc] using h

theorem zScoreDetect_of_var_eq_zero {vals : List ℚ} {t : ℚ}
    (h : varOf vals = 0) : zScoreDetect vals t = [] := by
  unfold zScoreDetect
  simp [h]

theorem hrZEvents_of_var_eq_zero {rs : List Reading} {t : ℚ}
    (h : varOf (hrValuesOf rs) = 0) : hrZEvents rs t = [] := by
  unfold hrZEvents
  rw [zScoreDetect_of_var_eq_zero h]
  split <;> rfl

theorem spo2ZEvents_of_var_eq_zero {rs : List Reading} {t : ℚ}
    (h : varOf (spo2ValuesOf rs) = 0) : spo2ZEvents rs t = [] := by
  unfold spo2ZEvents
  rw [zScoreDetect_of_var_eq_zero h]
  split <;> rfl

end AnomalyDetection

open AnomalyDetection BaselineOptimization TrendForecasting in
/-- Claim C3: no statistical component fabricates statistics below its
minimum sample count: `detect_anomalies` with fewer than 3 readings
returns status `insufficient_data` with an empty anomaly list;
`forecast_trends` with fewer than 7 readings returns status
`insufficient_data` (and no per-metric trends); and
`compute_optimized_baseline` with fewer than 5 readings (resp. fewer
than 5 readings in the plausible 40–120 bpm range) returns status
`insufficient_data` (resp. `insufficient_valid_data`) with the baseline
unchanged.  Each case is a total, typed return — no exception. -/
theorem claim_C3 :
    (∀ (rs : List Reading) (t : ℚ), rs.length < 3 →
      (detect_anomalies rs t).status = "insufficient_data" ∧
      (detect_anomalies rs t).anomalies = [] ∧
      (detect_anomalies rs t).anomaly_count = 0) ∧
    (∀ (rs : List Reading) (fd : ℤ), rs.length < 7 →
      (forecast_trends rs fd).status = "insufficient_data" ∧
      (forecast_trends rs fd).hr_trend = none ∧
      (forecast_trends rs fd).spo2_trend = none) ∧
    (∀ (rs : List Reading) (cb : Option ℤ) (sf : ℚ), rs.length < 5 →
      (compute_optimized_baseline rs cb sf).status = "insufficient_data" ∧
      (compute_optimized_baseline rs cb sf).new_baseline = cb ∧
      (compute_optimized_baseline rs cb sf).adjusted = false) ∧
    (∀ (rs : List Reading) (cb : Option ℤ) (sf : ℚ),
      ¬ rs.length < 5 → (validHr rs).length < 5 →
      (compute_optimized_baseline rs cb sf).status = "insufficient_valid_data" ∧
      (compute_optimized_baseline rs cb sf).new_baseline = cb ∧
      (compute_optimized_baseline rs cb sf).adjusted = false) := by
  refine ⟨fun rs t h => ?_, fun rs fd h => ?_, fun rs cb sf h => ?_,
    fun rs cb sf h h5 => ?_⟩
  · unfold detect_anomalies
    rw [if_pos h]
    exact ⟨rfl, rfl, rfl⟩
  · unfold forecast_trends
    rw [if_pos h]
    exact ⟨rfl, rfl, rfl⟩
  · unfold compute_optimized_baseline
    rw [if_pos h]
    exact ⟨rfl, rfl, rfl⟩
  · unfold compute_optimized_baseline
    rw [if_neg h, if_pos h5]
    exact ⟨rfl, rfl, rfl⟩

/-- Witness for C3 at concrete windows: two readings for the anomaly
detector, six for the trend forecaster, four for the baseline
calibrator, and five readings all outside 40–120 bpm for the
valid-count branch. -/
theorem claim_C3_witness :
    ((2 : ℕ) < 3 ∧
      (AnomalyDetection.detect_anomalies
        [⟨some 72, none, none⟩, ⟨some 73, none, none⟩] 2).status
        = "insufficient_data") ∧
    ((6 : ℕ) < 7 ∧
      (TrendForecasting.forecast_trends
        (List.replicate 6 (⟨some 72, none, none⟩ : Reading)) 14).status
        = "insufficient_data") ∧
    ((4 : ℕ) < 5 ∧
      (BaselineOptimization.compute_optimized_baseline
        (List.replicate 4 (⟨some 72, none, none⟩ : Reading)) (some 70) (3/10)).status
        = "insufficient_data") ∧
    (¬ (5 : ℕ) < 5 ∧
      (BaselineOptimization.validHr
        (List.replicate 5 (⟨some 150, none, none⟩ : Reading))).length < 5 ∧
      (BaselineOptimization.compute_optimized_baseline
        (List.replicate 5 (⟨some 150, none, none⟩ : Reading)) (some 70) (3/10)).status
        = "insufficient_valid_data") := by
  refine ⟨⟨by decide, ?_⟩, ⟨by decide, ?_⟩, ⟨by decide, ?_⟩, by decide, by decide, ?_⟩
  · exact (claim_C3.1 _ 2 (by decide)).1
  · exact (claim_C3.2.1 _ 14 (by decide)).1
  · exact (claim_C3.2.2.1 _ (some 70) (3/10) (by decide)).1
  · exact (claim_C3.2.2.2 _ (some 70) (3/10) (by decide) (by decide)).1

open AnomalyDetection in
/-- Claim C4: a metric whose window has zero population standard
deviation (`varOf = 0`, equivalently `_std = 0` since
`_std = sqrt varOf`) produces no z-score anomaly events for that
metric in `detect_anomalies` — the `std == 0` guard suppresses the
z-score computation instead of dividing by zero or raising. -/
theorem claim_C4 :
    ∀ (rs : List Reading) (t : ℚ),
      (varOf (hrValuesOf rs) = 0 →
        ∀ e ∈ (detect_anomalies rs t).anomalies, e.metric ≠ "heart_rate") ∧
      (varOf (spo2ValuesOf rs) = 0 →
        ∀ e ∈ (detect_anomalies rs t).anomalies, e.metric ≠ "spo2") := by
  intro rs t
  constructor
  · intro hv e he
    rcases mem_anomalies_cases he with h | h | h
    · rw [hrZEvents_of_var_eq_zero hv] at h
      cases h
    · rw [metric_of_mem_spo2ZEvents h]
      decide
    · rw [metric_of_mem_jump h]
      decide
  · intro hv e he
    rcases mem_anomalies_cases he with h | h | h
    · rw [(props_of_mem_hrZEvents h).1]
      decide
    · rw [spo2ZEvents_of_var_eq_zero hv] at h
      cases h
    · rw [metric_of_mem_jump h]
      decide

/-- Witness for C4: ten identical readings (zero variance in both
metrics) produce a report whose events carry neither metric — indeed
the anomaly list is empty, so the quantified conclusions hold. -/
theorem claim_C4_witness :
    (AnomalyDetection.varOf (AnomalyDetection.hrValuesOf
      (List.replicate 10 (⟨some 72, some 98, none⟩ : Reading))) = 0 ∧
     AnomalyDetection.varOf (AnomalyDetection.spo2ValuesOf
      (List.replicate 10 (⟨some 72, some 98, none⟩ : Reading))) = 0) ∧
    (∀ e ∈ (AnomalyDetection.detect_anomalies
        (List.replicate 10 (⟨some 72, some 98, none⟩ : Reading)) 2).anomalies,
      e.metric ≠ "heart_rate") := by
  refine ⟨⟨by decide, by decide⟩, ?_⟩
  exact (claim_C4 (List.replicate 10 (⟨some 72, some 98, none⟩ : Reading)) 2).1
    (by decide)

open AnomalyDetection in
/-- Claim C5: on 9 near-identical heart-rate readings (oscillating 71–75)
followed by one outlier of 180, `detect_anomalies` with
`z_threshold = 2.0` flags anomalies only at the outlier's index 9: the
z-score event with direction `high`, and the beat-to-beat jump event
(|Δ| = 105 ≥ 40) also at index 9. -/
theorem claim_C5 :
    (detect_anomalies c5Readings 2).status = "anomalies_detected" ∧
    (detect_anomalies c5Readings 2).anomalies
      = [⟨9, "heart_rate", 180, "high", none⟩,
         ⟨9, "hr_variability", 105, "spike", none⟩] ∧
    (∀ e ∈ (detect_anomalies c5Readings 2).anomalies, e.index = 9) ∧
    (∀ e ∈ (detect_anomalies c5Readings 2).anomalies,
      e.metric = "heart_rate" → e.direction = "high") := by
  refine ⟨by decide, by decide, by decide, by decide⟩

open AnomalyDetection in
/-- Claim C10 (implicit): in every report, a z-score anomaly event
(heart-rate or SpO2 — the two blocks of `detect_anomalies` share the
pattern) takes its `index` and `value` from the sub-list of readings
whose metric field is non-null (`hrValuesOf` resp. `spo2ValuesOf`,
i.e. `readings.filterMap f`), while its `timestamp` is read from the
full, unfiltered readings list at that same index.  Consequently, for
every window and either metric: if the `i`-th metric-bearing reading
sits at position `p` and any reading before it lacks that metric, then
`i < p`, so the event's value is the metric value of the reading at
position `p` while its timestamp is read from the different reading at
position `i`.  The final conjunct illustrates this at `c10Readings`
(first reading lacks `heart_rate`): the flagged value `180` lives in
the reading at position 10 with timestamp `10`, but the event carries
timestamp `9`. -/
theorem claim_C10 :
    (∀ (rs : List Reading) (t : ℚ),
      ∀ e ∈ (detect_anomalies rs t).anomalies,
        (e.metric = "heart_rate" →
          e.value = (hrValuesOf rs).getD e.index 0 ∧
          e.timestamp = tsAt rs e.index) ∧
        (e.metric = "spo2" →
          e.value = (spo2ValuesOf rs).getD e.index 0 ∧
          e.timestamp = tsAt rs e.index)) ∧
    (∀ (rs : List Reading) (f : Reading → Option ℚ) (i p : ℕ),
      posOfNth f rs i = some p →
      (∃ q rq, q < p ∧ rs.get? q = some rq ∧ f rq = none) →
      i < p ∧ i ≠ p ∧ (rs.filterMap f).get? i = (rs.get? p).bind f) ∧
    ((detect_anomalies c10Readings 2).anomalies.filter
        (fun e => e.metric == "heart_rate")
      = [⟨9, "heart_rate", 180, "high", some 9⟩] ∧
     c10Readings.getD 10 ⟨none, none, none⟩
      = ⟨some 180, none, some 10⟩ ∧
     (⟨9, "heart_rate", 180, "high", some 9⟩ : AnomalyEvent).timestamp
      ≠ (c10Readings.getD 10 ⟨none, none, none⟩).timestamp) := by
  refine ⟨?_, ?_, by decide, by decide, by decide⟩
  · intro rs t e he
    constructor
    · intro hm
      rcases mem_anomalies_cases he with h | h | h
      · exact (props_of_mem_hrZEvents h).2
      · rw [metric_of_mem_spo2ZEvents h] at hm
        exact absurd hm (by decide)
      · rw [metric_of_mem_jump h] at hm
        exact absurd hm (by decide)
    · intro hm
      rcases mem_anomalies_cases he with h | h | h
      · rw [(props_of_mem_hrZEvents h).1] at hm
        exact absurd hm (by decide)
      · exact (props_of_mem_spo2ZEvents h).2
      · rw [metric_of_mem_jump h] at hm
        exact absurd hm (by decide)
  · intro rs f i p hpos hmiss
    have hlt := lt_of_posOfNth_of_missing hpos hmiss
    exact ⟨hlt, Nat.ne_of_lt hlt, filterMap_get_posOfNth hpos⟩

/-- Witness for C10: both general parts applied at the `c10Readings`
report — the sourcing fact at the flagged heart-rate event, and the
displaced-timestamp consequence at filtered index 9, whose
metric-bearing reading sits at position 10 behind the metric-less
reading at position 0. -/
theorem claim_C10_witness :
    ((⟨9, "heart_rate", 180, "high", some 9⟩ : AnomalyDetection.AnomalyEvent)
        ∈ (AnomalyDetection.detect_anomalies c10Readings 2).anomalies ∧
      AnomalyDetection.posOfNth Reading.heart_rate c10Readings 9 = some 10 ∧
      c10Readings.get? 0 = some ⟨none, none, some 0⟩ ∧
      Reading.heart_rate ⟨none, none, some 0⟩ = none) ∧
    ((⟨9, "heart_rate", 180, "high", some 9⟩ : AnomalyDetection.AnomalyEvent).value
        = (AnomalyDetection.hrValuesOf c10Readings).getD 9 0 ∧
      (⟨9, "heart_rate", 180, "high", some 9⟩ : AnomalyDetection.AnomalyEvent).timestamp
        = AnomalyDetection.tsAt c10Readings 9) ∧
    ((9 : ℕ) < 10 ∧ (9 : ℕ) ≠ 10 ∧
      (c10Readings.filterMap Reading.heart_rate).get? 9
        = (c10Readings.get? 10).bind Reading.heart_rate) := by
  refine ⟨⟨by decide, by decide, by decide, rfl⟩, ?_, ?_⟩
  · exact (claim_C10.1 c10Readings 2 _ (by decide)).1 rfl
  · exact claim_C10.2.1 c10Readings Reading.heart_rate 9 10 (by decide)
      ⟨0, ⟨none, none, some 0⟩, by decide, by decide, rfl⟩

open TrendForecasting in
/-- Claim C6: on 14 daily heart-rate readings rising exactly 2 bpm/day
from 72, `forecast_trends` reports `slope_per_day = 2`,
`direction = "increasing"`, `r_squared = 1`, and a `forecasted_value`
at +14 days of 126 = 98 + 28 (the current fitted value plus 28); and in
general `_linear_forecast` classifies the direction as `stable` iff
`|slope| < 0.1` per day, else `increasing` when the slope is positive
and `decreasing` otherwise. -/
theorem claim_C6 :
    ((forecast_trends c6Readings 14).status = "ok" ∧
     (forecast_trends c6Readings 14).hr_trend
       = some { slope_per_day := 2, direction := "increasing",
                current_fitted := 98, forecasted_value := 126,
                forecast_day := 14, r_squared := 1, data_points := 14 } ∧
     (126 : ℚ) = 98 + 28) ∧
    (∀ (series : List (ℚ × ℚ)) (fd : ℤ),
      ((linearForecast series fd).direction = "stable"
        ↔ |slopeOf series| < 1/10) ∧
      ((linearForecast series fd).direction = "increasing"
        ↔ ¬ |slopeOf series| < 1/10 ∧ 0 < slopeOf series) ∧
      ((linearForecast series fd).direction = "decreasing"
        ↔ ¬ |slopeOf series| < 1/10 ∧ ¬ 0 < slopeOf series)) := by
  constructor
  · exact ⟨by decide, by decide, by norm_num⟩
  · intro series fd
    have hd : (linearForecast series fd).direction =
        if |slopeOf series| < 1/10 then "stable"
        else if 0 < slopeOf series then "increasing" else "decreasing" := rfl
    rw [hd]
    by_cases h1 : |slopeOf series| < 1/10
    · rw [if_pos h1]
      exact ⟨⟨fun _ => h1, fun _ => rfl⟩,
             ⟨fun h => absurd h (by decide), fun h => absurd h1 h.1⟩,
             ⟨fun h => absurd h (by decide), fun h => absurd h1 h.1⟩⟩
    · rw [if_neg h1]
      by_cases h2 : 0 < slopeOf series
      · rw [if_pos h2]
        exact ⟨⟨fun h => absurd h (by decide), fun h => absurd h h1⟩,
               ⟨fun _ => ⟨h1, h2⟩, fun _ => rfl⟩,
               ⟨fun h => absurd h (by decide), fun h => absurd h2 h.2.elim⟩⟩
      · rw [if_neg h2]
        exact ⟨⟨fun h => absurd h (by decide), fun h => absurd h h1⟩,
               ⟨fun h => absurd h (by decide), fun h => absurd h.2 h2⟩,
               ⟨fun _ => ⟨h1, h2⟩, fun _ => rfl⟩⟩

open BaselineOptimization in
/-- Counterexample to claim C7 as stated: with `current_baseline = 0`
(a baseline that exists) and five valid resting readings of 70, the new
baseline is `round(0*0.7 + 70*0.3) = 21` clamped to `40`, so the claim
demands `adjusted = (|40 - 0| ≥ 1) = True`; but the source's
`current_baseline or new_baseline` treats the current baseline `0` as
absent, computes `adjustment = 40 - 40 = 0`, and returns
`adjusted = False`. -/
theorem claim_C7_counterexample :
    (compute_optimized_baseline
        (List.replicate 5 (⟨some 70, none, none⟩ : Reading)) (some 0)
        (3/10)).new_baseline = some 40 ∧
    (compute_optimized_baseline
        (List.replicate 5 (⟨some 70, none, none⟩ : Reading)) (some 0)
        (3/10)).adjusted = false ∧
    (1 : ℤ) ≤ |40 - 0| := by
  exact ⟨by decide, by decide, by decide⟩

open BaselineOptimization in
/-- Claim C7 as amended: with at least 5 valid readings, when a nonzero
current baseline exists the new baseline is
`round(current*(1-0.3) + filtered_mean*0.3)` clamped to `[40, 120]` and
`adjusted` iff that differs from the current baseline by at least 1;
when `current_baseline = 0` the adjustment computation treats the
baseline as absent (Python falsiness), so `adjusted` is `False`
regardless.  With no current baseline the new baseline is the clamped
rounded filtered mean.  In particular `current_baseline = 70` with six
resting readings of 70 gives `new_baseline = 70` and
`adjusted = False`. -/
theorem claim_C7 :
    (∀ (rs : List Reading) (c : ℤ), 5 ≤ (validHr rs).length → c ≠ 0 →
      (compute_optimized_baseline rs (some c) (3/10)).status = "ok" ∧
      (compute_optimized_baseline rs (some c) (3/10)).new_baseline
        = some (max 40 (min 120
            (pyRoundInt ((c : ℚ) * (1 - 3/10) + filteredMean rs * (3/10))))) ∧
      ((compute_optimized_baseline rs (some c) (3/10)).adjusted = true
        ↔ 1 ≤ |max 40 (min 120
            (pyRoundInt ((c : ℚ) * (1 - 3/10) + filteredMean rs * (3/10)))) - c|)) ∧
    (∀ (rs : List Reading) (c : ℤ), 5 ≤ (validHr rs).length →
      (compute_optimized_baseline rs (some c) (3/10)).adjusted = true →
        c ≠ 0) ∧
    (∀ rs : List Reading, 5 ≤ (validHr rs).length →
      (compute_optimized_baseline rs none (3/10)).new_baseline
        = some (max 40 (min 120 (pyRoundInt (filteredMean rs))))) ∧
    ((compute_optimized_baseline
        (List.replicate 6 (⟨some 70, none, none⟩ : Reading)) (some 70)
        (3/10)).new_baseline = some 70 ∧
     (compute_optimized_baseline
        (List.replicate 6 (⟨some 70, none, none⟩ : Reading)) (some 70)
        (3/10)).adjusted = false) := by
  have hguards : ∀ (rs : List Reading), 5 ≤ (validHr rs).length →
      ¬ rs.length < 5 ∧ ¬ (validHr rs).length < 5 := by
    intro rs h5
    have := validHr_length_le rs
    omega
  refine ⟨fun rs c h5 hc => ?_, fun rs c h5 hadj => ?_, fun rs h5 => ?_,
    by decide, by decide⟩
  · obtain ⟨hl, hv⟩ := hguards rs h5
    refine ⟨?_, ?_, ?_⟩
    · unfold compute_optimized_baseline
      rw [if_neg hl, if_neg hv]
    · unfold compute_optimized_baseline
      rw [if_neg hl, if_neg hv]
    · unfold compute_optimized_baseline
      rw [if_neg hl, if_neg hv]
      dsimp only
      rw [if_neg hc, decide_eq_true_iff]
  · obtain ⟨hl, hv⟩ := hguards rs h5
    intro h0
    subst h0
    unfold compute_optimized_baseline at hadj
    rw [if_neg hl, if_neg hv] at hadj
    dsimp only at hadj
    simp at hadj
  · obtain ⟨hl, hv⟩ := hguards rs h5
    unfold compute_optimized_baseline
    rw [if_neg hl, if_neg hv]

/-- Witness for C7 at `current_baseline = 70` and six resting readings
of 70: the hypotheses hold and the amended theorem yields
`new_baseline = 70` (the clamped rounded smoothed value) with the
`adjusted` equivalence. -/
theorem claim_C7_witness :
    ((5 : ℕ) ≤ (BaselineOptimization.validHr
        (List.replicate 6 (⟨some 70, none, none⟩ : Reading))).length ∧
      (70 : ℤ) ≠ 0) ∧
    (BaselineOptimization.compute_optimized_baseline
        (List.replicate 6 (⟨some 70, none, none⟩ : Reading)) (some 70)
        (3/10)).status = "ok" := by
  refine ⟨⟨by decide, by decide⟩, ?_⟩
  exact (claim_C7.1 (List.replicate 6 (⟨some 70, none, none⟩ : Reading)) 70
    (by decide) (by decide)).1

open RecommendationRanking in
/-- Claim C9: recommendation variant assignment is deterministic and
depends only on the patient identifier: with no override, any two calls
with the same `user_id` — even with different risk tiers — return the
same variant, which is `A` exactly when the hashed identifier is even
(parity of the stable hash, no per-call randomness); risk tiers are
normalized with `critical` folding into `high` and any unrecognized
tier folding into `low`. -/
theorem claim_C9 :
    ∀ (md5Int : String → ℕ) (uid : ℤ),
      (∀ t1 t2 : String,
        (get_ranked_recommendation md5Int uid t1 none).variant
          = (get_ranked_recommendation md5Int uid t2 none).variant) ∧
      (∀ t : String,
        (get_ranked_recommendation md5Int uid t none).variant = "A"
          ↔ md5Int (toString uid) % 2 = 0) ∧
      ((get_ranked_recommendation md5Int uid "critical" none).risk_level
        = "high") ∧
      (∀ t : String,
        lowerStr t ∉ (["critical", "high", "moderate", "low"] : List String) →
        (get_ranked_recommendation md5Int uid t none).risk_level = "low") := by
  intro md5Int uid
  refine ⟨fun t1 t2 => rfl, fun t => ?_,
    show normalizeLevel "critical" = "high" by decide, fun t h => ?_⟩
  · show assignVariant md5Int uid = "A" ↔ _
    unfold assignVariant
    by_cases hp : md5Int (toString uid) % 2 = 0
    · rw [if_pos hp]
      exact ⟨fun _ => hp, fun _ => rfl⟩
    · rw [if_neg hp]
      exact ⟨fun hAB => absurd hAB (by decide), fun hpar => absurd hpar hp⟩
  · simp only [List.mem_cons, List.mem_singleton, not_or] at h
    obtain ⟨h1, h2, h3, h4⟩ := h
    show normalizeLevel t = "low"
    unfold normalizeLevel
    rw [if_neg (by simp [h1, h2]), if_pos (by simp [h3, h4])]

/-- Witness for C9: a constant hash, `user_id = 7`, and the unrecognized
tier string `Weird` — its lower-cased form is outside the recognized
tiers and the assignment folds it to `low`. -/
theorem claim_C9_witness :
    (RecommendationRanking.lowerStr "Weird"
        ∉ (["critical", "high", "moderate", "low"] : List String)) ∧
    (RecommendationRanking.get_ranked_recommendation (fun _ => 0) 7 "Weird"
        none).risk_level = "low" :=
  ⟨by decide, (claim_C9 (fun _ => 0) 7).2.2.2 "Weird" (by decide)⟩

theorem riskLevel_iff (q : ℚ) :
    ((if 4/5 ≤ q then "high" else if 1/2 ≤ q then "moderate" else "low")
      = "high" ↔ 4/5 ≤ q) ∧
    ((if 4/5 ≤ q then "high" else if 1/2 ≤ q then "moderate" else "low")
      = "moderate" ↔ 1/2 ≤ q ∧ q < 4/5) ∧
    ((if 4/5 ≤ q then "high" else if 1/2 ≤ q then "moderate" else "low")
      = "low" ↔ q < 1/2) := by
  by_cases hH : 4/5 ≤ q
  · rw [if_pos hH]
    exact ⟨⟨fun _ => hH, fun _ => rfl⟩,
           ⟨fun h => absurd h (by decide),
            fun h => absurd hH (not_le.mpr h.2)⟩,
           ⟨fun h => absurd h (by decide),
            fun h => absurd hH (not_le.mpr (by linarith))⟩⟩
  · rw [if_neg hH]
    by_cases hM : 1/2 ≤ q
    · rw [if_pos hM]
      exact ⟨⟨fun h => absurd h (by decide), fun h => absurd h hH⟩,
             ⟨fun _ => ⟨hM, not_le.mp hH⟩, fun _ => rfl⟩,
             ⟨fun h => absurd h (by decide),
              fun h => absurd hM (not_le.mpr h)⟩⟩
    · rw [if_neg hM]
      exact ⟨⟨fun h => absurd h (by decide),
              fun h => absurd (le_trans (show (1:ℚ)/2 ≤ 4/5 by norm_num) h) hM⟩,
             ⟨fun h => absurd h (by decide), fun h => absurd h.1 hM⟩,
             ⟨fun _ => not_le.mp hM, fun _ => rfl⟩⟩

open MLPrediction in
/-- Counterexample to claim C1 as stated: with the artifact reporting
class probabilities `(1/3, 2/3)`, the returned `confidence` field is
`round(2/3, 4) = 0.6667`, which is not the maximum class probability
`2/3` — the source rounds both `risk_score` and `confidence` to four
decimal places before returning them. -/
theorem claim_C1_counterexample :
    ((predict_risk ⟨some (constModel (1/3, 2/3)), some id, some ["age"]⟩
        sampleInput).toOption.map PredictResult.confidence)
      = some (6667/10000) ∧
    (6667/10000 : ℚ) ≠ max (1/3 : ℚ) (2/3) := by
  constructor
  · decide
  · rw [max_eq_right (by norm_num : (1/3 : ℚ) ≤ 2/3)]
    norm_num

open MLPrediction in
/-- Claim C1 as amended: whenever the artifact is loaded and its class
probabilities `(p_low, p_high)` lie in `[0,1]` (its interface
contract), `predict_risk` returns a result whose `risk_score` is
`p_high` rounded to 4 decimals (hence still in `[0,1]`), whose
`risk_level` is determined by exact thresholds on the unrounded
probability — `high` iff `p_high ≥ 0.80`, `moderate` iff
`0.50 ≤ p_high < 0.80`, `low` iff `p_high < 0.50` — and whose
`confidence` is the maximum of the two class probabilities rounded to
4 decimals. -/
theorem claim_C1 :
    ∀ (m : MLModel) (sc : List ℚ → List ℚ) (cols : List String)
      (inp : PredictInput),
      0 ≤ (probsOf m sc cols inp).1 → (probsOf m sc cols inp).1 ≤ 1 →
      0 ≤ (probsOf m sc cols inp).2 → (probsOf m sc cols inp).2 ≤ 1 →
      ∃ r, predict_risk ⟨some m, some sc, some cols⟩ inp = .ok r ∧
        r.risk_score = pyRound (probsOf m sc cols inp).2 4 ∧
        0 ≤ r.risk_score ∧ r.risk_score ≤ 1 ∧
        (r.risk_level = "high" ↔ 4/5 ≤ (probsOf m sc cols inp).2) ∧
        (r.risk_level = "moderate" ↔
          1/2 ≤ (probsOf m sc cols inp).2 ∧ (probsOf m sc cols inp).2 < 4/5) ∧
        (r.risk_level = "low" ↔ (probsOf m sc cols inp).2 < 1/2) ∧
        r.confidence
          = pyRound (max (probsOf m sc cols inp).1 (probsOf m sc cols inp).2) 4 := by
  intro m sc cols inp h0 h1 h2 h3
  refine ⟨_, rfl, rfl, pyRound_nonneg h2, pyRound_le_one h3, ?_, ?_, ?_, rfl⟩
  · exact (riskLevel_iff ((probsOf m sc cols inp).2)).1
  · exact (riskLevel_iff ((probsOf m sc cols inp).2)).2.1
  · exact (riskLevel_iff ((probsOf m sc cols inp).2)).2.2

/-- Witness for C1: the artifact reports probabilities `(1/4, 3/4)`, so
the amended theorem applies and in particular yields a `moderate`
classification with `risk_score = 0.75`. -/
theorem claim_C1_witness :
    ((0 : ℚ) ≤ (MLPrediction.probsOf (constModel (1/4, 3/4)) id ["age"]
        sampleInput).2 ∧
      (MLPrediction.probsOf (constModel (1/4, 3/4)) id ["age"]
        sampleInput).2 ≤ 1) ∧
    (∃ r, MLPrediction.predict_risk
        ⟨some (constModel (1/4, 3/4)), some id, some ["age"]⟩ sampleInput
        = .ok r ∧
      r.risk_score = pyRound (MLPrediction.probsOf (constModel (1/4, 3/4)) id
        ["age"] sampleInput).2 4 ∧
      0 ≤ r.risk_score ∧ r.risk_score ≤ 1 ∧
      (r.risk_level = "high" ↔ 4/5 ≤ (MLPrediction.probsOf
        (constModel (1/4, 3/4)) id ["age"] sampleInput).2) ∧
      (r.risk_level = "moderate" ↔
        1/2 ≤ (MLPrediction.probsOf (constModel (1/4, 3/4)) id ["age"]
          sampleInput).2 ∧
        (MLPrediction.probsOf (constModel (1/4, 3/4)) id ["age"]
          sampleInput).2 < 4/5) ∧
      (r.risk_level = "low" ↔ (MLPrediction.probsOf (constModel (1/4, 3/4)) id
        ["age"] sampleInput).2 < 1/2) ∧
      r.confidence = pyRound (max (MLPrediction.probsOf (constModel (1/4, 3/4))
        id ["age"] sampleInput).1 (MLPrediction.probsOf (constModel (1/4, 3/4))
        id ["age"] sampleInput).2) 4) := by
  refine ⟨⟨?_, ?_⟩, ?_⟩
  · show (0 : ℚ) ≤ 3/4
    norm_num
  · show (3/4 : ℚ) ≤ 1
    norm_num
  · exact claim_C1 (constModel (1/4, 3/4)) id ["age"] sampleInput
      (show (0 : ℚ) ≤ 1/4 by norm_num) (show (1/4 : ℚ) ≤ 1 by norm_num)
      (show (0 : ℚ) ≤ 3/4 by norm_num) (show (3/4 : ℚ) ≤ 1 by norm_num)

open MLPrediction in
/-- Counterexample to claim C2 as stated: with the scoring artifact not
loaded (all three module globals `None`), `predict_risk` raises
`RuntimeError` — modelled as `Except.error` — rather than returning a
typed result with an `Unavailable` status field. -/
theorem claim_C2_counterexample :
    predict_risk ⟨none, none, none⟩ sampleInput
      = Except.error "ML model not loaded. Server startup failed." := rfl

open MLPrediction in
/-- Claim C2 as amended: when the scoring artifact is not loaded (any of
the three globals is `None`), `predict_risk` raises
`RuntimeError("ML model not loaded. Server startup failed.")` — it
never returns a partial or default-fabricated score — and the API
caller `predict` branches on `is_loaded` before calling it, surfacing
the service-unavailable condition as HTTP 503 instead of letting the
exception unwind. -/
theorem claim_C2 :
    ∀ (st : MLState) (inp : PredictInput),
      st.model = none ∨ st.scaler = none ∨ st.feature_columns = none →
      predict_risk st inp
        = .error "ML model not loaded. Server startup failed." ∧
      predictEndpoint st inp
        = .error (503, "ML model not loaded. Check server logs.") := by
  intro st inp h
  obtain ⟨mo, so, fo⟩ := st
  rcases h with h | h | h <;> subst h
  · exact ⟨by cases so <;> cases fo <;> rfl, by cases so <;> cases fo <;> rfl⟩
  · exact ⟨by cases mo <;> cases fo <;> rfl, by cases mo <;> cases fo <;> rfl⟩
  · exact ⟨by cases mo <;> cases so <;> rfl, by cases mo <;> cases so <;> rfl⟩

/-- Witness for C2 at the fully-unloaded state. -/
theorem claim_C2_witness :
    ((⟨none, none, none⟩ : MLPrediction.MLState).model = none ∨
      (⟨none, none, none⟩ : MLPrediction.MLState).scaler = none ∨
      (⟨none, none, none⟩ : MLPrediction.MLState).feature_columns = none) ∧
    MLPrediction.predictEndpoint ⟨none, none, none⟩ sampleInput
      = .error (503, "ML model not loaded. Check server logs.") :=
  ⟨Or.inl rfl,
   (claim_C2 ⟨none, none, none⟩ sampleInput (Or.inl rfl)).2⟩

namespace Explainability

theorem contribGE_trans (a b c : String × ContribInfo) :
    contribGE a b → contribGE b c → contribGE a c :=
  fun h1 h2 => le_trans h2 h1

theorem contribGE_total (a b : String × ContribInfo) :
    contribGE a b ∨ contribGE b a :=
  le_total _ _

instance : IsTotal (String × ContribInfo) contribGE := ⟨contribGE_total⟩

instance : IsTrans (String × ContribInfo) contribGE := ⟨contribGE_trans⟩

theorem directionOf_iff (q : ℚ) :
    ((if 0 < q then "increasing" else if q < 0 then "decreasing"
        else "neutral") = "increasing" ↔ 0 < q) ∧
    ((if 0 < q then "increasing" else if q < 0 then "decreasing"
        else "neutral") = "decreasing" ↔ q < 0) ∧
    ((if 0 < q then "increasing" else if q < 0 then "decreasing"
        else "neutral") = "neutral" ↔ q = 0) := by
  by_cases hP : 0 < q
  · rw [if_pos hP]
    exact ⟨⟨fun _ => hP, fun _ => rfl⟩,
           ⟨fun h => absurd h (by decide), fun h => absurd hP (asymm h)⟩,
           ⟨fun h => absurd h (by decide), fun h => absurd hP (by simp [h])⟩⟩
  · rw [if_neg hP]
    by_cases hN : q < 0
    · rw [if_pos hN]
      exact ⟨⟨fun h => absurd h (by decide), fun h => absurd h hP⟩,
             ⟨fun _ => hN, fun _ => rfl⟩,
             ⟨fun h => absurd h (by decide), fun h => absurd hN (by simp [h])⟩⟩
    · rw [if_neg hN]
      exact ⟨⟨fun h => absurd h (by decide), fun h => absurd h hP⟩,
             ⟨fun h => absurd h (by decide), fun h => absurd h hN⟩,
             ⟨fun _ => le_antisymm (not_lt.mp hP) (not_lt.mp hN), fun _ => rfl⟩⟩

theorem mem_estimateContributions {features : List (String × ℚ)}
    {cols : List String} {gi : List (String × ℚ)} {p : String × ContribInfo}
    (h : p ∈ estimateContributions features cols gi) :
    p.2.contribution
      = pyRound (importanceOf gi cols.length p.1 * deviationOf features p.1) 4 ∧
    p.2.direction
      = (if 0 < p.2.contribution then "increasing"
         else if p.2.contribution < 0 then "decreasing" else "neutral") := by
  unfold estimateContributions at h
  simp only [List.mem_map] at h
  obtain ⟨c, -, rfl⟩ := h
  exact ⟨rfl, rfl⟩

end Explainability

open Explainability in
/-- Counterexample to claim C8 as stated: with no importance table,
three columns, and `age` at twice its typical value, the top feature's
reported contribution is `round((1/3)*1, 4) = 0.3333`, which differs
from `global_importance × deviation = 1/3` — the source rounds each
contribution to four decimal places. -/
theorem claim_C8_counterexample :
    ((compute_feature_importance c8Features c8Cols none).top_features.head?.map
        TopFeature.contribution) = some (3333/10000) ∧
    (3333/10000 : ℚ) ≠ (1/3) * ((110 - 55) / 55) := by
  exact ⟨by decide, by norm_num⟩

open Explainability in
/-- Claim C8 as amended: for every feature dict, column list and optional
importance array, the explainer returns at most 5 top features, sorted
by descending absolute contribution; each feature's contribution is
`global_importance × deviation` rounded to 4 decimals, with
`deviation = (value − typical)/|typical|` (0 when the typical value
is 0, folded into `deviationOf`), a uniform `1/n` weight substituting
for the global importance when no importance table is supplied, and
`direction` = increasing/decreasing/neutral according to the sign of
the (rounded) contribution. -/
theorem claim_C8 :
    ∀ (features : List (String × ℚ)) (cols : List String)
      (mi : Option (List ℚ)),
      (compute_feature_importance features cols mi).top_features.length ≤ 5 ∧
      (compute_feature_importance features cols mi).top_features.Pairwise
        (fun a b => |b.contribution| ≤ |a.contribution|) ∧
      (∀ e ∈ (compute_feature_importance features cols mi).top_features,
        e.contribution = pyRound
          (importanceOf (globalImportancesOf cols mi) cols.length e.feature
            * deviationOf features e.feature) 4 ∧
        (e.direction = "increasing" ↔ 0 < e.contribution) ∧
        (e.direction = "decreasing" ↔ e.contribution < 0) ∧
        (e.direction = "neutral" ↔ e.contribution = 0)) ∧
      (mi = none →
        ∀ e ∈ (compute_feature_importance features cols mi).top_features,
          e.contribution = pyRound
            ((1 / (max 1 cols.length : ℕ)) * deviationOf features e.feature) 4) := by
  intro features cols mi
  have hmem : ∀ e ∈ (compute_feature_importance features cols mi).top_features,
      ∃ p ∈ estimateContributions features cols (globalImportancesOf cols mi),
        e = { feature := p.1, value := p.2.value,
              contribution := p.2.contribution, direction := p.2.direction,
              global_importance :=
                ((globalImportancesOf cols mi).lookup p.1).getD 0 } := by
    intro e he
    unfold compute_feature_importance at he
    simp only [List.mem_map] at he
    obtain ⟨p, hp, rfl⟩ := he
    exact ⟨p, (List.perm_insertionSort contribGE _).mem_iff.mp
      (List.mem_of_mem_take hp), rfl⟩
  have hform : ∀ e ∈ (compute_feature_importance features cols mi).top_features,
      e.contribution = pyRound
        (importanceOf (globalImportancesOf cols mi) cols.length e.feature
          * deviationOf features e.feature) 4 ∧
      (e.direction = "increasing" ↔ 0 < e.contribution) ∧
      (e.direction = "decreasing" ↔ e.contribution < 0) ∧
      (e.direction = "neutral" ↔ e.contribution = 0) := by
    intro e he
    obtain ⟨p, hp, rfl⟩ := hmem e he
    obtain ⟨hc, hd⟩ := mem_estimateContributions hp
    refine ⟨hc, ?_, ?_, ?_⟩
    · show p.2.direction = "increasing" ↔ 0 < p.2.contribution
      rw [hd]
      exact (directionOf_iff _).1
    · show p.2.direction = "decreasing" ↔ p.2.contribution < 0
      rw [hd]
      exact (directionOf_iff _).2.1
    · show p.2.direction = "neutral" ↔ p.2.contribution = 0
      rw [hd]
      exact (directionOf_iff _).2.2
  refine ⟨?_, ?_, hform, ?_⟩
  · show (List.map _ (List.take 5 _)).length ≤ 5
    rw [List.length_map, List.length_take]
    exact min_le_left 5 _
  · show (List.map _ (List.take 5 _)).Pairwise _
    rw [List.pairwise_map]
    have hs : (List.insertionSort contribGE
        (estimateContributions features cols
          (globalImportancesOf cols mi))).Pairwise contribGE :=
      List.sorted_insertionSort contribGE _
    exact (hs.sublist (List.take_sublist 5 _)).imp fun h => h
  · intro h e he
    subst h
    exact (hform e he).1

/-- Witness for C8 at the concrete feature dict with no importance table:
at most 5 ranked features, and every returned contribution uses the
uniform `1/3` weight. -/
theorem claim_C8_witness :
    ((Explainability.compute_feature_importance c8Features c8Cols
        none).top_features.length ≤ 5) ∧
    (∀ e ∈ (Explainability.compute_feature_importance c8Features c8Cols
        none).top_features,
      e.contribution = pyRound ((1 / (max 1 c8Cols.length : ℕ))
        * Explainability.deviationOf c8Features e.feature) 4) :=
  ⟨(claim_C8 c8Features c8Cols none).1,
   (claim_C8 c8Features c8Cols none).2.2.2 rfl⟩
